import Mathlib

/-!
# Camera HTTP handlers (`main/camera_http.c`)

A shallow embedding of the two request handlers of `camera_http.c`:

* `jpg_stream_httpd_handler` (route `/`): the unbounded MJPEG multipart loop;
* `http_send_jpg_handler` (route `/jpg`): one still image.

The collaborators (camera driver, JPEG transcoder, HTTP response object, timer)
are an environment `Env` of answer functions indexed by call number, so that
every call may succeed or fail independently.  Each handler returns, next to its
C result, the sequence of external calls it made (`Event`), in program order.
Dereferences of the frame pointer `fb` are recorded as `Event.fb_read`.

Machine types: `esp_err_t` is `Int`; `size_t` and `uint32_t` are 32 bit wide on
the ESP32 and appear as `% 2 ^ 32` where the source formats or casts them;
`int64_t` timer readings are `Int` (readings are microseconds since boot, so
their difference does not overflow); C division is `Int.tdiv`.
-/

namespace CameraHttp

/-! ## Constants and types -/

/-- Result code of the ESP-IDF calls, a C `int`. -/
abbrev esp_err_t := Int

/-- Success code `ESP_OK`. -/
def ESP_OK : esp_err_t := 0

/-- Generic failure code `ESP_FAIL`. -/
def ESP_FAIL : esp_err_t := -1

/-- Modelled from the spec: the enumeration `pixformat_t` of `esp_camera.h`, which is not part
of the repository; the handlers only compare a tag with `PIXFORMAT_JPEG`. -/
inductive pixformat_t where
  | PIXFORMAT_RGB565
  | PIXFORMAT_YUV422
  | PIXFORMAT_GRAYSCALE
  | PIXFORMAT_JPEG
  | PIXFORMAT_RGB888
  | PIXFORMAT_RAW
  deriving DecidableEq, Repr

open pixformat_t

/-- The C `struct timeval`: two `long` fields. -/
structure timeval where
  tv_sec : Int
  tv_usec : Int
  deriving DecidableEq, Repr

/-- Modelled from the spec: the frame `camera_fb_t` of `esp_camera.h` (pixel buffer, buffer
length, format tag, capture timestamp).  The C pair `(buf, len)` is the byte sequence `buf`,
whose length is `len`. -/
structure camera_fb_t where
  buf : List Nat
  format : pixformat_t
  timestamp : timeval
  deriving DecidableEq, Repr

/-- The field `fb->len`. -/
def camera_fb_t.len (fb : camera_fb_t) : Nat := fb.buf.length

/-- Value of the pointer `_jpg_buf`: `NULL`, the buffer of a frame (`fb->buf`), or a buffer
allocated by `frame2jpg`. -/
inductive buf_ptr where
  | null
  | of_fb (fb : camera_fb_t)
  | heap (data : List Nat)
  deriving DecidableEq, Repr

/-- Bytes a pointer points to. -/
def buf_ptr.data : buf_ptr → List Nat
  | .null => []
  | .of_fb fb => fb.buf
  | .heap d => d

/-- External calls of the handlers, with their arguments and results. -/
inductive Event where
  | fb_get (r : Option camera_fb_t)
  | fb_read (fb : camera_fb_t)
  | frame2jpg (fb : camera_fb_t) (quality : Nat) (r : Option (List Nat))
  | fb_return (fb : camera_fb_t)
  | free (p : buf_ptr)
  | resp_set_type (v : String)
  | resp_set_hdr (k v : String)
  | resp_send_chunk (data : List Nat) (r : esp_err_t)
  | resp_send (data : List Nat) (r : esp_err_t)
  | resp_send_500
  | log_e (msg : String)
  | log_mjpg (kb ms fps_divisor : Nat)
  | log_jpg (bytes ms : Nat)
  deriving DecidableEq, Repr

/-- The collaborators.  `timer k`, `fb_get k`, `frame2jpg k`, `resp_send_chunk k` answer the
`k`-th call (counted from 0) of `esp_timer_get_time`, `esp_camera_fb_get`, `frame2jpg`,
`httpd_resp_send_chunk`.  `frame2jpg` answers `some out` when it returns `true` and has stored
the buffer `out` and its length through its two result pointers, and `none` when it returns
`false` and has left both as they were. -/
structure Env where
  timer : Nat → Int
  fb_get : Nat → Option camera_fb_t
  frame2jpg : Nat → camera_fb_t → Nat → Option (List Nat)
  resp_set_type : String → esp_err_t
  resp_send_chunk : Nat → List Nat → esp_err_t
  resp_send : List Nat → esp_err_t

/-- The macro `PART_BOUNDARY`. -/
def PART_BOUNDARY : String := "123456789000000000000987654321"

/-- The constant `_STREAM_CONTENT_TYPE`. -/
def _STREAM_CONTENT_TYPE : String := "multipart/x-mixed-replace;boundary=" ++ PART_BOUNDARY

/-- The constant `_STREAM_BOUNDARY`. -/
def _STREAM_BOUNDARY : String := "\r\n--" ++ PART_BOUNDARY ++ "\r\n"

/-- Bytes of a C string. -/
def c_bytes (cs : List Char) : List Nat := cs.map Char.toNat

/-- Conversion `%u` of `printf` applied to a `size_t` (32 bit). -/
def fmt_u (x : Nat) : List Char := Nat.toDigits 10 (x % 2 ^ 32)

/-- Conversion `%ld` of `printf`. -/
def fmt_ld (x : Int) : List Char :=
  if x < 0 then '-' :: Nat.toDigits 10 x.natAbs else Nat.toDigits 10 x.natAbs

/-- Conversion `%06ld` of `printf`: at least 6 characters, filled with zeros after the sign. -/
def fmt_06ld (x : Int) : List Char :=
  if x < 0 then
    '-' :: (List.replicate (5 - (Nat.toDigits 10 x.natAbs).length) '0' ++ Nat.toDigits 10 x.natAbs)
  else
    List.replicate (6 - (Nat.toDigits 10 x.natAbs).length) '0' ++ Nat.toDigits 10 x.natAbs

/-- The call `snprintf(buf, size, ...)` on the rendered text `out`: the characters stored in
`buf` (at most `size - 1`) and the returned length (that of the whole text). -/
def snprintf (size : Nat) (out : List Char) : List Char × Nat :=
  (out.take (size - 1), out.length)

/-- The format `_STREAM_PART` rendered with the `size_t` length: the two further arguments of
the call have no conversion in the format and are not rendered. -/
def format_STREAM_PART (len : Nat) : List Char :=
  "Content-Type: image/jpeg\r\nContent-Length: ".toList ++ fmt_u len ++ "\r\n\r\n".toList

/-- The format `"%ld.%06ld"` of the still handler. -/
def format_ts (t : timeval) : List Char :=
  fmt_ld t.tv_sec ++ '.' :: fmt_06ld t.tv_usec

/-! ## Streaming handler -/

/-- Local variables of `jpg_stream_httpd_handler`, the static `last_frame`, and the number of
calls made so far to each collaborator. -/
structure StreamState where
  fb : Option camera_fb_t
  _timestamp : timeval
  res : esp_err_t
  _jpg_buf_len : Nat
  _jpg_buf : buf_ptr
  last_frame : Int
  n_timer : Nat
  n_get : Nat
  n_jpg : Nat
  n_chunk : Nat

/-- Lines 103-122: acquire a frame and, unless it is JPEG already, transcode it. -/
def stream_acquire (env : Env) (s : StreamState) : StreamState × List Event :=
  match env.fb_get s.n_get with
  | none =>
    ({ s with fb := none, n_get := s.n_get + 1, res := ESP_FAIL },
      [.fb_get none, .log_e "Camera capture failed"])
  | some fb =>
    if fb.format ≠ PIXFORMAT_JPEG then
      match env.frame2jpg s.n_jpg fb 80 with
      | some out =>
        ({ s with fb := none, n_get := s.n_get + 1, n_jpg := s.n_jpg + 1,
                  _timestamp := fb.timestamp,
                  _jpg_buf := .heap out, _jpg_buf_len := out.length },
          [.fb_get (some fb), .fb_read fb, .fb_read fb, .fb_read fb,
           .frame2jpg fb 80 (some out), .fb_return fb])
      | none =>
        ({ s with fb := none, n_get := s.n_get + 1, n_jpg := s.n_jpg + 1,
                  _timestamp := fb.timestamp, res := ESP_FAIL },
          [.fb_get (some fb), .fb_read fb, .fb_read fb, .fb_read fb,
           .frame2jpg fb 80 none, .fb_return fb, .log_e "JPEG compression failed"])
    else
      ({ s with fb := some fb, n_get := s.n_get + 1, _timestamp := fb.timestamp,
                _jpg_buf_len := fb.len, _jpg_buf := .of_fb fb },
        [.fb_get (some fb), .fb_read fb, .fb_read fb, .fb_read fb, .fb_read fb, .fb_read fb])

/-- Bytes of the first chunk: `strlen(_STREAM_BOUNDARY)` bytes of `_STREAM_BOUNDARY`. -/
def boundary_chunk : List Nat := c_bytes _STREAM_BOUNDARY.toList

/-- Bytes of the second chunk (lines 127-128): `_STREAM_PART` rendered by `snprintf` into
`part_buf` with size 128, of which the returned length `hlen` is sent. -/
def header_chunk (len : Nat) : List Nat :=
  let part_buf := (snprintf 128 (format_STREAM_PART len)).1
  let hlen := (snprintf 128 (format_STREAM_PART len)).2
  (c_bytes part_buf).take hlen

/-- Lines 123-125: the boundary chunk. -/
def send_boundary (env : Env) (s : StreamState) : StreamState × List Event :=
  if s.res = ESP_OK then
    let r := env.resp_send_chunk s.n_chunk boundary_chunk
    ({ s with res := r, n_chunk := s.n_chunk + 1 }, [.resp_send_chunk boundary_chunk r])
  else (s, [])

/-- Lines 126-129: the part header. -/
def send_header (env : Env) (s : StreamState) : StreamState × List Event :=
  if s.res = ESP_OK then
    let r := env.resp_send_chunk s.n_chunk (header_chunk s._jpg_buf_len)
    ({ s with res := r, n_chunk := s.n_chunk + 1 },
      [.resp_send_chunk (header_chunk s._jpg_buf_len) r])
  else (s, [])

/-- Events of a read of `_jpg_buf_len` bytes through `_jpg_buf`: a read of the frame when the
pointer is the frame's buffer. -/
def buf_ptr.read_events : buf_ptr → List Event
  | .of_fb fb => [.fb_read fb]
  | _ => []

/-- Lines 130-132: the payload chunk. -/
def send_payload (env : Env) (s : StreamState) : StreamState × List Event :=
  if s.res = ESP_OK then
    let r := env.resp_send_chunk s.n_chunk (s._jpg_buf.data.take s._jpg_buf_len)
    ({ s with res := r, n_chunk := s.n_chunk + 1 },
      s._jpg_buf.read_events ++ [.resp_send_chunk (s._jpg_buf.data.take s._jpg_buf_len) r])
  else (s, [])

/-- Lines 133-140: give the frame back, or else free a non-null `_jpg_buf`. -/
def stream_release (s : StreamState) : StreamState × List Event :=
  match s.fb with
  | some fb => ({ s with fb := none, _jpg_buf := .null }, [.fb_return fb])
  | none =>
    match s._jpg_buf with
    | .null => (s, [])
    | p => ({ s with _jpg_buf := .null }, [.free p])

/-- Run `f` after a step, appending its events. -/
def and_then (p : StreamState × List Event) (f : StreamState → StreamState × List Event) :
    StreamState × List Event :=
  ((f p.1).1, p.2 ++ (f p.1).2)

/-- Lines 123-132: the three chunk writes, each guarded by `res == ESP_OK`. -/
def stream_send (env : Env) (s : StreamState) : StreamState × List Event :=
  and_then (and_then (send_boundary env s) (send_header env)) (send_payload env)

/-- Lines 103-140: one pass through the loop body up to the test `res != ESP_OK`. -/
def stream_iteration (env : Env) (s : StreamState) : StreamState × List Event :=
  and_then (and_then (stream_acquire env s) (stream_send env)) stream_release

/-- The cast `(uint32_t)x` of an `int64_t`. -/
def to_uint32 (x : Int) : Nat := (x % 2 ^ 32).toNat

/-- Lines 144-149: frame timing and the log line; the last argument of the log call is
`1000.0 / (uint32_t)frame_time`, of which the divisor is recorded. -/
def stream_timing (env : Env) (s : StreamState) : StreamState × List Event :=
  let fr_end := env.timer s.n_timer
  let frame_time := fr_end - s.last_frame
  let frame_time := Int.tdiv frame_time 1000
  ({ s with last_frame := fr_end, n_timer := s.n_timer + 1 },
    [.log_mjpg ((s._jpg_buf_len / 1024) % 2 ^ 32) (to_uint32 frame_time) (to_uint32 frame_time)])

/-- Lines 102-150: the loop `while (true)`, run for at most `fuel` passes.  The first component
is the value of `res` at the `break`, or `none` when the loop is still running after `fuel`
passes; the second the events so far. -/
def stream_loop (env : Env) : Nat → StreamState → Option esp_err_t × List Event
  | 0, _ => (none, [])
  | fuel + 1, s =>
    let it := stream_iteration env s
    if it.1.res ≠ ESP_OK then (some it.1.res, it.2)
    else
      let tm := stream_timing env it.1
      let rest := stream_loop env fuel tm.1
      (rest.1, it.2 ++ tm.2 ++ rest.2)

/-- Outcome of the streaming handler: the returned code (`none`: still inside the loop), the
static `last_frame` on return (its value at loop entry while `ret = none`) and the events. -/
structure StreamResult where
  ret : Option esp_err_t
  last_frame : Int
  trace : List Event
  deriving DecidableEq, Repr

/-- State at line 95: the initial values of the locals, `last_frame` initialised when it is 0,
and `res` the result of `httpd_resp_set_type`. -/
def stream_start (env : Env) (last_frame : Int) : StreamState :=
  { fb := none, _timestamp := ⟨0, 0⟩, res := env.resp_set_type _STREAM_CONTENT_TYPE,
    _jpg_buf_len := 0, _jpg_buf := .null,
    last_frame := if last_frame = 0 then env.timer 0 else last_frame,
    n_timer := if last_frame = 0 then 1 else 0,
    n_get := 0, n_jpg := 0, n_chunk := 0 }

/-- The handler `jpg_stream_httpd_handler`, with the static `last_frame` on entry. -/
def jpg_stream_httpd_handler (env : Env) (last_frame : Int) (fuel : Nat) : StreamResult :=
  let s := stream_start env last_frame
  if s.res ≠ ESP_OK then
    { ret := some s.res, last_frame := s.last_frame,
      trace := [.resp_set_type _STREAM_CONTENT_TYPE] }
  else
    let lp := stream_loop env fuel s
    { ret := lp.1, last_frame := if lp.1.isSome then 0 else s.last_frame,
      trace := [.resp_set_type _STREAM_CONTENT_TYPE,
                .resp_set_hdr "Access-Control-Allow-Origin" "*",
                .resp_set_hdr "X-Framerate" "60"] ++ lp.2 }

/-- State in which the handler starts pass number `n` (counted from 0) of the loop, when it
gets that far. -/
def stream_entry (env : Env) (last_frame : Int) : Nat → Option StreamState
  | 0 => if (stream_start env last_frame).res ≠ ESP_OK then none
         else some (stream_start env last_frame)
  | n + 1 =>
    (stream_entry env last_frame n).bind fun s =>
      if (stream_iteration env s).1.res ≠ ESP_OK then none
      else some (stream_timing env (stream_iteration env s).1).1

/-! ## Still-capture handler -/

/-- Outcome of the still handler. -/
structure JpgResult where
  ret : esp_err_t
  trace : List Event
  deriving DecidableEq, Repr

/-- The handler `http_send_jpg_handler`. -/
def http_send_jpg_handler (env : Env) : JpgResult :=
  let fr_start := env.timer 0
  match env.fb_get 0 with
  | none =>
    { ret := ESP_FAIL, trace := [.fb_get none, .log_e "Camera capture failed", .resp_send_500] }
  | some fb =>
    let ts := (snprintf 32 (format_ts fb.timestamp)).1
    let head : List Event :=
      [.fb_get (some fb), .resp_set_type "image/jpeg",
       .resp_set_hdr "Content-Disposition" "inline; filename=capture.jpg",
       .resp_set_hdr "Access-Control-Allow-Origin" "*",
       .fb_read fb, .fb_read fb,
       .resp_set_hdr "X-Timestamp" (String.mk ts),
       .fb_read fb]
    let sent : Nat × esp_err_t × List Event :=
      if fb.format = PIXFORMAT_JPEG then
        (fb.len, env.resp_send (fb.buf.take fb.len),
          [.fb_read fb, .fb_read fb, .fb_read fb,
           .resp_send (fb.buf.take fb.len) (env.resp_send (fb.buf.take fb.len))])
      else (0, ESP_OK, [])
    let fb_len := sent.1
    let res := sent.2.1
    let fr_end := env.timer 1
    { ret := res,
      trace := head ++ sent.2.2 ++
        [.fb_return fb,
         .log_jpg (fb_len % 2 ^ 32) (to_uint32 (Int.tdiv (fr_end - fr_start) 1000))] }

/-! ## Observations on event sequences -/

/-- One step of the frame monitor: `held` is the frame acquired and not yet released.  A frame
is acquired only while none is held; a read, a transcode and a release must name the frame
held (`none`: the discipline is broken). -/
def frame_step (held : Option camera_fb_t) : Event → Option (Option camera_fb_t)
  | .fb_get (some fb) => if held = none then some (some fb) else none
  | .fb_read fb => if held = some fb then some held else none
  | .frame2jpg fb _ _ => if held = some fb then some held else none
  | .fb_return fb => if held = some fb then some none else none
  | _ => some held

/-- The frame monitor run over a sequence of events. -/
def frame_monitor : Option camera_fb_t → List Event → Option (Option camera_fb_t)
  | held, [] => some held
  | held, e :: es => (frame_step held e).bind (fun h => frame_monitor h es)

/-- A call of `esp_camera_fb_get`. -/
def Event.is_fb_get : Event → Bool
  | .fb_get _ => true
  | _ => false

/-- A call of `esp_camera_fb_get` that returned a frame. -/
def Event.is_acquire : Event → Bool
  | .fb_get (some _) => true
  | _ => false

/-- A call of `esp_camera_fb_return`. -/
def Event.is_fb_return : Event → Bool
  | .fb_return _ => true
  | _ => false

/-- A call of `free`. -/
def Event.is_free : Event → Bool
  | .free _ => true
  | _ => false

/-- A call of `httpd_resp_send_chunk`. -/
def Event.is_chunk : Event → Bool
  | .resp_send_chunk _ _ => true
  | _ => false

/-- Every acquired frame is released exactly once, no frame is released that is not held, no
frame is read or transcoded unless it is held, and no frame is held at the end. -/
def FrameDiscipline (t : List Event) : Prop :=
  frame_monitor none t = some none ∧
    t.countP Event.is_fb_return = t.countP Event.is_acquire

instance (t : List Event) : Decidable (FrameDiscipline t) := by
  unfold FrameDiscipline; infer_instance

/-- Data and result of a chunk write. -/
def Event.chunk : Event → Option (List Nat × esp_err_t)
  | .resp_send_chunk d r => some (d, r)
  | _ => none

/-- The chunk writes of a sequence of events, in order: data and result of each. -/
def chunk_writes (t : List Event) : List (List Nat × esp_err_t) :=
  t.filterMap Event.chunk

/-- The boundary delimiter of the multipart framing, as the specification writes it. -/
def boundary_delimiter : List Nat :=
  c_bytes "\r\n--123456789000000000000987654321\r\n".toList

/-- The part header of the multipart framing, as the specification writes it, with the length
`n` in decimal. -/
def part_header (n : Nat) : List Nat :=
  c_bytes ("Content-Type: image/jpeg\r\nContent-Length: " ++ toString n ++ "\r\n\r\n").toList

/-- Three chunks that form one part: delimiter, header announcing the payload length,
payload. -/
def IsPart (b h p : List Nat) : Prop :=
  b = boundary_delimiter ∧ h = part_header p.length

/-- A sequence of chunk writes is a sequence of parts, of which the last may be cut short by a
failed write. -/
def PartsOk : List (List Nat × esp_err_t) → Prop
  | b :: h :: p :: rest => IsPart b.1 h.1 p.1 ∧ PartsOk rest
  | [b, h] => b.1 = boundary_delimiter ∧ ∃ n, h.1 = part_header n
  | [b] => b.1 = boundary_delimiter
  | [] => True

/-- Buffer lengths are values of `size_t`: every frame of the camera and every output of the
transcoder is shorter than `2 ^ 32` bytes. -/
def SizeOk (env : Env) : Prop :=
  (∀ k fb, env.fb_get k = some fb → fb.len < 2 ^ 32) ∧
  (∀ k fb q out, env.frame2jpg k fb q = some out → out.length < 2 ^ 32)

/-- The chunk writes of a sequence of complete parts, given the header and the payload of
each: delimiter, header, payload, every write successful. -/
def complete_parts (parts : List (List Nat × List Nat)) : List (List Nat × esp_err_t) :=
  parts.flatMap fun hp => [(boundary_delimiter, ESP_OK), (hp.1, ESP_OK), (hp.2, ESP_OK)]

/-- A JPEG frame of 100 bytes taken at `(10, 500000)`. -/
def jpeg_frame : camera_fb_t :=
  { buf := List.range 100, format := PIXFORMAT_JPEG, timestamp := ⟨10, 500000⟩ }

/-- A raw frame. -/
def raw_frame : camera_fb_t :=
  { buf := [1, 2, 3, 4, 5, 6, 7, 8], format := PIXFORMAT_RGB565, timestamp := ⟨3, 7⟩ }

/-- A camera that delivers `jpeg_frame` four times and then fails; the transcoder and the
writes succeed; the clock advances by 500 microseconds per reading. -/
def env_four_frames : Env where
  timer := fun k => 1000 + 500 * k
  fb_get := fun k => if k < 4 then some jpeg_frame else none
  frame2jpg := fun _ _ _ => some (List.replicate 50 0)
  resp_set_type := fun _ => ESP_OK
  resp_send_chunk := fun _ _ => ESP_OK
  resp_send := fun _ => ESP_OK

/-- The whole-body writes (`httpd_resp_send`) of a sequence of events: data and result. -/
def body_writes (t : List Event) : List (List Nat × esp_err_t) :=
  t.filterMap fun e => match e with
    | .resp_send d r => some (d, r)
    | _ => none

/-- The response headers set (`httpd_resp_set_hdr`) in a sequence of events. -/
def headers_set (t : List Event) : List (String × String) :=
  t.filterMap fun e => match e with
    | .resp_set_hdr k v => some (k, v)
    | _ => none

/-- A call that sets the content type or a header. -/
def Event.is_header : Event → Bool
  | .resp_set_type _ => true
  | .resp_set_hdr _ _ => true
  | _ => false

/-- The number `usec` in decimal, filled with zeros on the left to 6 digits, as the
specification writes the microseconds. -/
def pad6 (usec : Nat) : String :=
  String.mk (List.replicate (6 - (toString usec).length) '0') ++ toString usec

/-- The text `<seconds>.<microseconds>` of the header `X-Timestamp`, as the specification
writes it. -/
def timestamp_text (sec usec : Nat) : String :=
  toString sec ++ "." ++ pad6 usec

/-- A camera without a frame. -/
def env_no_frame : Env where
  timer := fun k => 1000 + 500 * k
  fb_get := fun _ => none
  frame2jpg := fun _ _ _ => none
  resp_set_type := fun _ => ESP_OK
  resp_send_chunk := fun _ _ => ESP_OK
  resp_send := fun _ => ESP_OK

/-- A camera that delivers `raw_frame`, a transcoder that returns 50 bytes, writes that
succeed. -/
def env_raw : Env where
  timer := fun k => 1000 + 40000 * k
  fb_get := fun _ => some raw_frame
  frame2jpg := fun _ _ _ => some (List.replicate 50 0)
  resp_set_type := fun _ => ESP_OK
  resp_send_chunk := fun _ _ => ESP_OK
  resp_send := fun _ => ESP_OK

/-- The chunk writes of one part with payload `payload`, started after `n` earlier chunk
writes, in the words of the specification: delimiter, header announcing the payload length,
payload, each write made only when the one before succeeded. -/
def part_writes (env : Env) (n : Nat) (payload : List Nat) : List Event :=
  if env.resp_send_chunk n boundary_delimiter ≠ ESP_OK then
    [.resp_send_chunk boundary_delimiter (env.resp_send_chunk n boundary_delimiter)]
  else if env.resp_send_chunk (n + 1) (part_header payload.length) ≠ ESP_OK then
    [.resp_send_chunk boundary_delimiter (env.resp_send_chunk n boundary_delimiter),
     .resp_send_chunk (part_header payload.length)
       (env.resp_send_chunk (n + 1) (part_header payload.length))]
  else
    [.resp_send_chunk boundary_delimiter (env.resp_send_chunk n boundary_delimiter),
     .resp_send_chunk (part_header payload.length)
       (env.resp_send_chunk (n + 1) (part_header payload.length)),
     .resp_send_chunk payload (env.resp_send_chunk (n + 2) payload)]

/-- A camera that always delivers `jpeg_frame`, and a connection on which chunk write number
4 (the header of the second part) fails with `ESP_ERR_HTTPD_RESP_SEND` (`0xb007`). -/
def env_write_fails : Env where
  timer := fun k => 1000 + 40000 * k
  fb_get := fun _ => some jpeg_frame
  frame2jpg := fun _ _ _ => none
  resp_set_type := fun _ => ESP_OK
  resp_send_chunk := fun k _ => if k = 4 then 45063 else ESP_OK
  resp_send := fun _ => ESP_OK

/-- Condition at the head of the loop: `res` is `ESP_OK` and `_jpg_buf` is `NULL`. -/
def LoopEntry (s : StreamState) : Prop := s.res = ESP_OK ∧ s._jpg_buf = .null

/-- Outcome of the three guarded chunk writes started with `res = ESP_OK`, `n` earlier chunk
writes, payload length `len` and payload pointer `p`: the final `res`, the number of
chunk writes made so far, and the events. -/
def send_outcome (env : Env) (n len : Nat) (p : buf_ptr) : esp_err_t × Nat × List Event :=
  if env.resp_send_chunk n boundary_chunk ≠ ESP_OK then
    (env.resp_send_chunk n boundary_chunk, n + 1,
      [.resp_send_chunk boundary_chunk (env.resp_send_chunk n boundary_chunk)])
  else if env.resp_send_chunk (n + 1) (header_chunk len) ≠ ESP_OK then
    (env.resp_send_chunk (n + 1) (header_chunk len), n + 2,
      [.resp_send_chunk boundary_chunk (env.resp_send_chunk n boundary_chunk),
       .resp_send_chunk (header_chunk len) (env.resp_send_chunk (n + 1) (header_chunk len))])
  else
    (env.resp_send_chunk (n + 2) (p.data.take len), n + 3,
      [.resp_send_chunk boundary_chunk (env.resp_send_chunk n boundary_chunk),
       .resp_send_chunk (header_chunk len) (env.resp_send_chunk (n + 1) (header_chunk len))]
      ++ p.read_events ++
      [.resp_send_chunk (p.data.take len) (env.resp_send_chunk (n + 2) (p.data.take len))])

/-! ## Properties -/

theorem ESP_FAIL_ne_OK : ESP_FAIL ≠ ESP_OK := by decide

theorem stream_send_skip (env : Env) (s : StreamState) (hs : s.res ≠ ESP_OK) :
    stream_send env s = (s, []) := by
  simp [stream_send, and_then, send_boundary, send_header, send_payload, hs]

theorem stream_send_eq (env : Env) (s : StreamState) (hs : s.res = ESP_OK) :
    stream_send env s =
      ({ s with res := (send_outcome env s.n_chunk s._jpg_buf_len s._jpg_buf).1,
                n_chunk := (send_outcome env s.n_chunk s._jpg_buf_len s._jpg_buf).2.1 },
        (send_outcome env s.n_chunk s._jpg_buf_len s._jpg_buf).2.2) := by
  by_cases h0 : env.resp_send_chunk s.n_chunk boundary_chunk = ESP_OK
  · by_cases h1 : env.resp_send_chunk (s.n_chunk + 1) (header_chunk s._jpg_buf_len) = ESP_OK
    · simp [stream_send, and_then, send_boundary, send_header, send_payload, send_outcome,
        hs, h0, h1]
    · simp [stream_send, and_then, send_boundary, send_header, send_payload, send_outcome,
        hs, h0, h1]
  · simp [stream_send, and_then, send_boundary, send_header, send_payload, send_outcome,
      hs, h0]

theorem iter_get_none (env : Env) (s : StreamState) (hb : s._jpg_buf = .null)
    (hg : env.fb_get s.n_get = none) :
    stream_iteration env s =
      ({ s with fb := none, n_get := s.n_get + 1, res := ESP_FAIL },
        [.fb_get none, .log_e "Camera capture failed"]) := by
  have ha : stream_acquire env s =
      ({ s with fb := none, n_get := s.n_get + 1, res := ESP_FAIL },
        [.fb_get none, .log_e "Camera capture failed"]) := by
    simp [stream_acquire, hg]
  simp [stream_iteration, ha, and_then, stream_send_skip, ESP_FAIL_ne_OK, stream_release, hb]

theorem iter_jpg_failed (env : Env) (s : StreamState) (fb : camera_fb_t)
    (hb : s._jpg_buf = .null) (hg : env.fb_get s.n_get = some fb)
    (hf : fb.format ≠ PIXFORMAT_JPEG) (hj : env.frame2jpg s.n_jpg fb 80 = none) :
    stream_iteration env s =
      ({ s with fb := none, n_get := s.n_get + 1, n_jpg := s.n_jpg + 1,
                _timestamp := fb.timestamp, res := ESP_FAIL },
        [.fb_get (some fb), .fb_read fb, .fb_read fb, .fb_read fb,
         .frame2jpg fb 80 none, .fb_return fb, .log_e "JPEG compression failed"]) := by
  have ha : stream_acquire env s =
      ({ s with fb := none, n_get := s.n_get + 1, n_jpg := s.n_jpg + 1,
                _timestamp := fb.timestamp, res := ESP_FAIL },
        [.fb_get (some fb), .fb_read fb, .fb_read fb, .fb_read fb,
         .frame2jpg fb 80 none, .fb_return fb, .log_e "JPEG compression failed"]) := by
    simp [stream_acquire, hg, hf, hj]
  simp [stream_iteration, ha, and_then, stream_send_skip, ESP_FAIL_ne_OK, stream_release, hb]

theorem iter_transcoded (env : Env) (s : StreamState) (fb : camera_fb_t) (out : List Nat)
    (hs : s.res = ESP_OK) (hg : env.fb_get s.n_get = some fb)
    (hf : fb.format ≠ PIXFORMAT_JPEG) (hj : env.frame2jpg s.n_jpg fb 80 = some out) :
    stream_iteration env s =
      ({ s with fb := none, n_get := s.n_get + 1, n_jpg := s.n_jpg + 1,
                _timestamp := fb.timestamp, _jpg_buf := .null, _jpg_buf_len := out.length,
                res := (send_outcome env s.n_chunk out.length (.heap out)).1,
                n_chunk := (send_outcome env s.n_chunk out.length (.heap out)).2.1 },
        [.fb_get (some fb), .fb_read fb, .fb_read fb, .fb_read fb,
         .frame2jpg fb 80 (some out), .fb_return fb]
        ++ (send_outcome env s.n_chunk out.length (.heap out)).2.2
        ++ [.free (.heap out)]) := by
  have ha : stream_acquire env s =
      ({ s with fb := none, n_get := s.n_get + 1, n_jpg := s.n_jpg + 1,
                _timestamp := fb.timestamp,
                _jpg_buf := .heap out, _jpg_buf_len := out.length },
        [.fb_get (some fb), .fb_read fb, .fb_read fb, .fb_read fb,
         .frame2jpg fb 80 (some out), .fb_return fb]) := by
    simp [stream_acquire, hg, hf, hj]
  rw [stream_iteration, ha]
  simp [and_then, stream_send_eq, hs, stream_release]

theorem iter_direct (env : Env) (s : StreamState) (fb : camera_fb_t)
    (hs : s.res = ESP_OK) (hg : env.fb_get s.n_get = some fb)
    (hf : fb.format = PIXFORMAT_JPEG) :
    stream_iteration env s =
      ({ s with fb := none, n_get := s.n_get + 1,
                _timestamp := fb.timestamp, _jpg_buf := .null, _jpg_buf_len := fb.len,
                res := (send_outcome env s.n_chunk fb.len (.of_fb fb)).1,
                n_chunk := (send_outcome env s.n_chunk fb.len (.of_fb fb)).2.1 },
        [.fb_get (some fb), .fb_read fb, .fb_read fb, .fb_read fb, .fb_read fb, .fb_read fb]
        ++ (send_outcome env s.n_chunk fb.len (.of_fb fb)).2.2
        ++ [.fb_return fb]) := by
  have ha : stream_acquire env s =
      ({ s with fb := some fb, n_get := s.n_get + 1, _timestamp := fb.timestamp,
                _jpg_buf_len := fb.len, _jpg_buf := .of_fb fb },
        [.fb_get (some fb), .fb_read fb, .fb_read fb, .fb_read fb, .fb_read fb, .fb_read fb]) := by
    simp [stream_acquire, hg, hf]
  rw [stream_iteration, ha]
  simp [and_then, stream_send_eq, hs, stream_release]

theorem iteration_cases (env : Env) (s : StreamState) (hs : LoopEntry s)
    (P : StreamState × List Event → Prop)
    (h1 : env.fb_get s.n_get = none →
      P ({ s with fb := none, n_get := s.n_get + 1, res := ESP_FAIL },
        [.fb_get none, .log_e "Camera capture failed"]))
    (h2 : ∀ fb, env.fb_get s.n_get = some fb → fb.format ≠ PIXFORMAT_JPEG →
      env.frame2jpg s.n_jpg fb 80 = none →
      P ({ s with fb := none, n_get := s.n_get + 1, n_jpg := s.n_jpg + 1,
                  _timestamp := fb.timestamp, res := ESP_FAIL },
        [.fb_get (some fb), .fb_read fb, .fb_read fb, .fb_read fb,
         .frame2jpg fb 80 none, .fb_return fb, .log_e "JPEG compression failed"]))
    (h3 : ∀ fb out, env.fb_get s.n_get = some fb → fb.format ≠ PIXFORMAT_JPEG →
      env.frame2jpg s.n_jpg fb 80 = some out →
      P ({ s with fb := none, n_get := s.n_get + 1, n_jpg := s.n_jpg + 1,
                  _timestamp := fb.timestamp, _jpg_buf := .null, _jpg_buf_len := out.length,
                  res := (send_outcome env s.n_chunk out.length (.heap out)).1,
                  n_chunk := (send_outcome env s.n_chunk out.length (.heap out)).2.1 },
        [.fb_get (some fb), .fb_read fb, .fb_read fb, .fb_read fb,
         .frame2jpg fb 80 (some out), .fb_return fb]
        ++ (send_outcome env s.n_chunk out.length (.heap out)).2.2
        ++ [.free (.heap out)]))
    (h4 : ∀ fb, env.fb_get s.n_get = some fb → fb.format = PIXFORMAT_JPEG →
      P ({ s with fb := none, n_get := s.n_get + 1,
                  _timestamp := fb.timestamp, _jpg_buf := .null, _jpg_buf_len := fb.len,
                  res := (send_outcome env s.n_chunk fb.len (.of_fb fb)).1,
                  n_chunk := (send_outcome env s.n_chunk fb.len (.of_fb fb)).2.1 },
        [.fb_get (some fb), .fb_read fb, .fb_read fb, .fb_read fb, .fb_read fb, .fb_read fb]
        ++ (send_outcome env s.n_chunk fb.len (.of_fb fb)).2.2
        ++ [.fb_return fb])) :
    P (stream_iteration env s) := by
  cases hg : env.fb_get s.n_get with
  | none => rw [iter_get_none env s hs.2 hg]; exact h1 hg
  | some fb =>
    by_cases hf : fb.format = PIXFORMAT_JPEG
    · rw [iter_direct env s fb hs.1 hg hf]; exact h4 fb hg hf
    · cases hj : env.frame2jpg s.n_jpg fb 80 with
      | none => rw [iter_jpg_failed env s fb hs.2 hg hf hj]; exact h2 fb hg hf hj
      | some out => rw [iter_transcoded env s fb out hs.1 hg hf hj]; exact h3 fb out hg hf hj

theorem send_outcome_cases (env : Env) (n len : Nat) (p : buf_ptr) :
    (∃ r, r ≠ ESP_OK ∧ r = env.resp_send_chunk n boundary_chunk ∧
      send_outcome env n len p = (r, n + 1, [.resp_send_chunk boundary_chunk r])) ∨
    (∃ r, r ≠ ESP_OK ∧ env.resp_send_chunk n boundary_chunk = ESP_OK ∧
      r = env.resp_send_chunk (n + 1) (header_chunk len) ∧
      send_outcome env n len p = (r, n + 2,
        [.resp_send_chunk boundary_chunk ESP_OK, .resp_send_chunk (header_chunk len) r])) ∨
    (∃ r, env.resp_send_chunk n boundary_chunk = ESP_OK ∧
      env.resp_send_chunk (n + 1) (header_chunk len) = ESP_OK ∧
      r = env.resp_send_chunk (n + 2) (p.data.take len) ∧
      send_outcome env n len p = (r, n + 3,
        [.resp_send_chunk boundary_chunk ESP_OK, .resp_send_chunk (header_chunk len) ESP_OK]
        ++ p.read_events ++ [.resp_send_chunk (p.data.take len) r])) := by
  by_cases h0 : env.resp_send_chunk n boundary_chunk = ESP_OK
  · by_cases h1 : env.resp_send_chunk (n + 1) (header_chunk len) = ESP_OK
    · right; right
      exact ⟨_, h0, h1, rfl, by simp [send_outcome, h0, h1]⟩
    · right; left
      exact ⟨_, h1, h0, rfl, by simp [send_outcome, h0, h1]⟩
  · left
    exact ⟨_, h0, rfl, by simp [send_outcome, h0]⟩

theorem loop_entry_next (env : Env) (s : StreamState) (hs : LoopEntry s)
    (hr : (stream_iteration env s).1.res = ESP_OK) :
    LoopEntry (stream_timing env (stream_iteration env s).1).1 := by
  refine ⟨by simpa [stream_timing] using hr, ?_⟩
  simp only [stream_timing]
  refine iteration_cases env s hs (fun it => it.1._jpg_buf = .null) ?_ ?_ ?_ ?_
  · intro _; exact hs.2
  · intro fb _ _ _; exact hs.2
  · intro fb out _ _ _; rfl
  · intro fb _ _; rfl

theorem stream_loop_succ (env : Env) (fuel : Nat) (s : StreamState) :
    stream_loop env (fuel + 1) s =
      if (stream_iteration env s).1.res ≠ ESP_OK then
        (some (stream_iteration env s).1.res, (stream_iteration env s).2)
      else
        ((stream_loop env fuel (stream_timing env (stream_iteration env s).1).1).1,
          (stream_iteration env s).2 ++ (stream_timing env (stream_iteration env s).1).2 ++
            (stream_loop env fuel (stream_timing env (stream_iteration env s).1).1).2) := rfl

theorem frame_monitor_append (h : Option camera_fb_t) (a b : List Event) :
    frame_monitor h (a ++ b) = (frame_monitor h a).bind (fun h1 => frame_monitor h1 b) := by
  induction a generalizing h with
  | nil => simp [frame_monitor]
  | cons e es ih =>
    simp only [List.cons_append, frame_monitor]
    cases frame_step h e with
    | none => simp
    | some h1 => simp [ih]

theorem frame_discipline_append (a b : List Event) (ha : FrameDiscipline a)
    (hb : FrameDiscipline b) : FrameDiscipline (a ++ b) := by
  unfold FrameDiscipline at *
  refine ⟨by simp [frame_monitor_append, ha.1, hb.1], ?_⟩
  simp [List.countP_append, ha.2, hb.2]

theorem send_outcome_frames (env : Env) (n len : Nat) (p : buf_ptr) (h : Option camera_fb_t)
    (hp : ∀ fb, p = .of_fb fb → h = some fb) :
    frame_monitor h (send_outcome env n len p).2.2 = some h ∧
    (send_outcome env n len p).2.2.countP Event.is_fb_return = 0 ∧
    (send_outcome env n len p).2.2.countP Event.is_acquire = 0 := by
  rcases send_outcome_cases env n len p with ⟨r, _, _, e⟩ | ⟨r, _, _, _, e⟩ | ⟨r, _, _, _, e⟩ <;>
    rw [e]
  · simp [frame_monitor, frame_step, Event.is_fb_return, Event.is_acquire]
  · simp [frame_monitor, frame_step, Event.is_fb_return, Event.is_acquire]
  · cases p with
    | null => simp [frame_monitor, frame_step, Event.is_fb_return, Event.is_acquire,
        buf_ptr.read_events]
    | heap d => simp [frame_monitor, frame_step, Event.is_fb_return, Event.is_acquire,
        buf_ptr.read_events]
    | of_fb fb =>
      have := hp fb rfl
      subst this
      simp [frame_monitor, frame_step, Event.is_fb_return, Event.is_acquire,
        buf_ptr.read_events]

theorem stream_iteration_frames (env : Env) (s : StreamState) (hs : LoopEntry s) :
    FrameDiscipline (stream_iteration env s).2 := by
  refine iteration_cases env s hs (fun it => FrameDiscipline it.2) ?_ ?_ ?_ ?_
  · intro _
    simp [FrameDiscipline, frame_monitor, frame_step, Event.is_fb_return, Event.is_acquire]
  · intro fb _ _ _
    simp [FrameDiscipline, frame_monitor, frame_step, Event.is_fb_return, Event.is_acquire]
  · intro fb out _ _ _
    obtain ⟨h1, h2, h3⟩ := send_outcome_frames env s.n_chunk out.length (.heap out) none
      (by intro fb h; cases h)
    simp [FrameDiscipline, frame_monitor_append, frame_monitor, frame_step, h1, h2, h3,
      List.countP_append, List.countP_cons, Event.is_fb_return, Event.is_acquire]
  · intro fb _ _
    obtain ⟨h1, h2, h3⟩ := send_outcome_frames env s.n_chunk fb.len (.of_fb fb) (some fb)
      (by intro fb2 h; cases h; rfl)
    simp [FrameDiscipline, frame_monitor_append, frame_monitor, frame_step, h1, h2, h3,
      List.countP_append, List.countP_cons, Event.is_fb_return, Event.is_acquire]

theorem stream_loop_frames (env : Env) (fuel : Nat) (s : StreamState) (hs : LoopEntry s) :
    FrameDiscipline (stream_loop env fuel s).2 := by
  induction fuel generalizing s with
  | zero => simp [stream_loop, FrameDiscipline, frame_monitor]
  | succ fuel ih =>
    rw [stream_loop_succ]
    by_cases hr : (stream_iteration env s).1.res = ESP_OK
    · simp only [hr, ne_eq, not_true_eq_false, if_false]
      refine frame_discipline_append _ _ (frame_discipline_append _ _
        (stream_iteration_frames env s hs) ?_) (ih _ (loop_entry_next env s hs hr))
      simp [stream_timing, FrameDiscipline, frame_monitor, frame_step, Event.is_fb_return,
        Event.is_acquire]
    · simp only [hr, ne_eq, not_false_eq_true, if_true]
      exact stream_iteration_frames env s hs

/-- C1. In every run of the streaming handler, cut after any number of passes through the loop
and so in every terminating run, and in every run of the still handler, whatever the camera,
the transcoder and the writes answer: every frame obtained from `esp_camera_fb_get` is given
to `esp_camera_fb_return` exactly once, no frame is returned that is not held, and no frame is
read or transcoded after its return. -/
theorem frame_released_exactly_once (env : Env) (last_frame : Int) (fuel : Nat) :
    FrameDiscipline (jpg_stream_httpd_handler env last_frame fuel).trace ∧
    FrameDiscipline (http_send_jpg_handler env).trace := by
  constructor
  · unfold jpg_stream_httpd_handler
    by_cases h : (stream_start env last_frame).res = ESP_OK
    · simp only [h, ne_eq, not_true_eq_false, if_false]
      refine frame_discipline_append _ _ ?_
        (stream_loop_frames env fuel _ ⟨h, rfl⟩)
      simp [FrameDiscipline, frame_monitor, frame_step, Event.is_fb_return, Event.is_acquire]
    · simp [h, FrameDiscipline, frame_monitor, frame_step, Event.is_fb_return,
        Event.is_acquire]
  · unfold http_send_jpg_handler
    cases hg : env.fb_get 0 with
    | none =>
      simp [FrameDiscipline, frame_monitor, frame_step, Event.is_fb_return, Event.is_acquire]
    | some fb =>
      by_cases hf : fb.format = PIXFORMAT_JPEG <;>
        simp [hf, FrameDiscipline, frame_monitor, frame_step, Event.is_fb_return,
          Event.is_acquire]

theorem toDigits_length_le (n : Nat) (h : n < 2 ^ 32) : (Nat.toDigits 10 n).length ≤ 10 := by
  unfold Nat.toDigits
  exact Nat.toDigitsCore_length 10 (by decide) _ n 10 (by omega) (by decide)

theorem boundary_chunk_eq : boundary_chunk = boundary_delimiter := by decide

theorem header_chunk_eq (len : Nat) (h : len < 2 ^ 32) : header_chunk len = part_header len := by
  have hl := toDigits_length_le len h
  have hlen : (format_STREAM_PART len).length ≤ 127 := by
    simp only [format_STREAM_PART, fmt_u, List.length_append, Nat.mod_eq_of_lt h]
    have h1 : "Content-Type: image/jpeg\r\nContent-Length: ".toList.length = 42 := by decide
    have h2 : "\r\n\r\n".toList.length = 4 := by decide
    omega
  have ht : (format_STREAM_PART len).take 127 = format_STREAM_PART len :=
    List.take_of_length_le hlen
  simp only [header_chunk, snprintf, part_header, Nat.add_one_sub_one]
  rw [ht, List.take_of_length_le (by simp [c_bytes])]
  have hd : (toString len).data = Nat.toDigits 10 len := rfl
  simp only [format_STREAM_PART, fmt_u, Nat.mod_eq_of_lt h, String.toList, String.data_append,
    hd]

theorem chunk_writes_append (a b : List Event) :
    chunk_writes (a ++ b) = chunk_writes a ++ chunk_writes b := by
  simp [chunk_writes]

theorem chunk_writes_read_events (p : buf_ptr) : chunk_writes p.read_events = [] := by
  cases p <;> rfl

theorem send_outcome_parts (env : Env) (n len : Nat) (p : buf_ptr) (hlen : len < 2 ^ 32)
    (hp : len = p.data.length) :
    ((send_outcome env n len p).1 = ESP_OK →
      ∃ r0 r1 r2, chunk_writes (send_outcome env n len p).2.2 =
        [(boundary_delimiter, r0), (part_header len, r1), (p.data, r2)]) ∧
    PartsOk (chunk_writes (send_outcome env n len p).2.2) := by
  subst hp
  rcases send_outcome_cases env n p.data.length p with
    ⟨r, hr, _, e⟩ | ⟨r, hr, _, _, e⟩ | ⟨r, _, _, _, e⟩ <;> rw [e]
  · simp [chunk_writes, Event.chunk, PartsOk, boundary_chunk_eq, hr]
  · refine ⟨fun h => absurd h hr, ?_⟩
    simp [chunk_writes, Event.chunk, PartsOk, boundary_chunk_eq, header_chunk_eq _ hlen]
  · have e2 : chunk_writes ([Event.resp_send_chunk boundary_chunk ESP_OK,
        Event.resp_send_chunk (header_chunk p.data.length) ESP_OK] ++ p.read_events ++
        [Event.resp_send_chunk (List.take p.data.length p.data) r]) =
        [(boundary_delimiter, ESP_OK), (part_header p.data.length, ESP_OK), (p.data, r)] := by
      rw [chunk_writes_append, chunk_writes_append, chunk_writes_read_events]
      simp [chunk_writes, Event.chunk, boundary_chunk_eq, header_chunk_eq _ hlen]
    rw [e2]
    refine ⟨fun _ => ⟨_, _, _, rfl⟩, ?_⟩
    simp only [PartsOk, IsPart, and_self]

theorem stream_iteration_parts (env : Env) (s : StreamState) (hs : LoopEntry s)
    (hsz : SizeOk env) :
    ((stream_iteration env s).1.res = ESP_OK →
      ∃ b h p, chunk_writes (stream_iteration env s).2 = [b, h, p] ∧ IsPart b.1 h.1 p.1) ∧
    PartsOk (chunk_writes (stream_iteration env s).2) := by
  refine iteration_cases env s hs (fun it => (it.1.res = ESP_OK →
      ∃ b h p, chunk_writes it.2 = [b, h, p] ∧ IsPart b.1 h.1 p.1) ∧
    PartsOk (chunk_writes it.2)) ?_ ?_ ?_ ?_
  · intro _
    simp [chunk_writes, Event.chunk, PartsOk, ESP_FAIL_ne_OK]
  · intro fb _ _ _
    simp [chunk_writes, Event.chunk, PartsOk, ESP_FAIL_ne_OK]
  · intro fb out _ _ hj
    obtain ⟨h1, h2⟩ := send_outcome_parts env s.n_chunk out.length (.heap out)
      (hsz.2 _ _ _ _ hj) rfl
    have e0 : ∀ m : List Event, chunk_writes ([.fb_get (some fb), .fb_read fb, .fb_read fb,
        .fb_read fb, .frame2jpg fb 80 (some out), .fb_return fb] ++ m ++
        [.free (.heap out)]) = chunk_writes m := by
      intro m; simp [chunk_writes, Event.chunk]
    simp only [e0]
    refine ⟨fun h => ?_, h2⟩
    obtain ⟨r0, r1, r2, e⟩ := h1 h
    exact ⟨_, _, _, e, rfl, rfl⟩
  · intro fb hg _
    obtain ⟨h1, h2⟩ := send_outcome_parts env s.n_chunk fb.len (.of_fb fb)
      (hsz.1 _ _ hg) rfl
    have e0 : ∀ m : List Event, chunk_writes ([.fb_get (some fb), .fb_read fb, .fb_read fb,
        .fb_read fb, .fb_read fb, .fb_read fb] ++ m ++ [.fb_return fb]) = chunk_writes m := by
      intro m; simp [chunk_writes, Event.chunk]
    simp only [e0]
    refine ⟨fun h => ?_, h2⟩
    obtain ⟨r0, r1, r2, e⟩ := h1 h
    exact ⟨_, _, _, e, rfl, rfl⟩

theorem chunk_writes_timing (env : Env) (s : StreamState) :
    chunk_writes (stream_timing env s).2 = [] := rfl

theorem stream_loop_parts (env : Env) (fuel : Nat) (s : StreamState) (hs : LoopEntry s)
    (hsz : SizeOk env) : PartsOk (chunk_writes (stream_loop env fuel s).2) := by
  induction fuel generalizing s with
  | zero => simp [stream_loop, chunk_writes, PartsOk]
  | succ fuel ih =>
    rw [stream_loop_succ]
    by_cases hr : (stream_iteration env s).1.res = ESP_OK
    · simp only [hr, ne_eq, not_true_eq_false, if_false]
      obtain ⟨b, h, p, e, hp⟩ := (stream_iteration_parts env s hs hsz).1 hr
      have := ih _ (loop_entry_next env s hs hr)
      rw [chunk_writes_append, chunk_writes_append, e, chunk_writes_timing]
      simp only [List.append_nil, List.cons_append, List.nil_append, PartsOk]
      exact ⟨hp, this⟩
    · simp only [hr, ne_eq, not_false_eq_true, if_true]
      exact (stream_iteration_parts env s hs hsz).2

/-- C2. When buffer lengths are values of `size_t`, the chunk writes of every run of the
streaming handler, cut after any number of passes, are a sequence of parts: each three
consecutive chunks are the boundary delimiter, the header `Content-Type: image/jpeg` with
`Content-Length: N` in decimal, and a payload of exactly `N` bytes; only the last part may be
cut short (by a failed write). -/
theorem content_length_matches_payload (env : Env) (last_frame : Int) (fuel : Nat)
    (hsz : SizeOk env) :
    PartsOk (chunk_writes (jpg_stream_httpd_handler env last_frame fuel).trace) := by
  unfold jpg_stream_httpd_handler
  by_cases h : (stream_start env last_frame).res = ESP_OK
  · simp only [h, ne_eq, not_true_eq_false, if_false]
    rw [chunk_writes_append]
    have e0 : chunk_writes [.resp_set_type _STREAM_CONTENT_TYPE,
        .resp_set_hdr "Access-Control-Allow-Origin" "*", .resp_set_hdr "X-Framerate" "60"]
        = [] := rfl
    rw [e0, List.nil_append]
    exact stream_loop_parts env fuel _ ⟨h, rfl⟩ hsz
  · simp [h, chunk_writes, Event.chunk, PartsOk]

theorem size_ok_four_frames : SizeOk env_four_frames := by
  constructor
  · intro k fb h
    simp only [env_four_frames] at h
    split at h
    · cases h; decide
    · cases h
  · intro k fb q out h
    simp only [env_four_frames] at h
    cases h
    decide

/-- Witness of C2: the stream of four JPEG frames. -/
theorem content_length_matches_payload_witness :
    SizeOk env_four_frames ∧
    PartsOk (chunk_writes (jpg_stream_httpd_handler env_four_frames 0 6).trace) :=
  ⟨size_ok_four_frames, content_length_matches_payload env_four_frames 0 6 size_ok_four_frames⟩

theorem send_outcome_ok (env : Env) (n len : Nat) (p : buf_ptr)
    (hw : ∀ i d, env.resp_send_chunk i d = ESP_OK) :
    send_outcome env n len p = (ESP_OK, n + 3,
      [.resp_send_chunk boundary_chunk ESP_OK, .resp_send_chunk (header_chunk len) ESP_OK]
      ++ p.read_events ++ [.resp_send_chunk (p.data.take len) ESP_OK]) := by
  simp [send_outcome, hw]

theorem is_fb_get_read_events (p : buf_ptr) : p.read_events.countP Event.is_fb_get = 0 := by
  cases p <;> rfl

theorem stream_iteration_ok (env : Env) (s : StreamState) (hs : LoopEntry s)
    (hg : (env.fb_get s.n_get).isSome)
    (hjpg : ∀ i fb q, (env.frame2jpg i fb q).isSome)
    (hw : ∀ i d, env.resp_send_chunk i d = ESP_OK) :
    (stream_iteration env s).1.res = ESP_OK ∧
    (stream_iteration env s).1.n_get = s.n_get + 1 ∧
    (∃ h p, chunk_writes (stream_iteration env s).2 =
      [(boundary_delimiter, ESP_OK), (h, ESP_OK), (p, ESP_OK)]) ∧
    (stream_iteration env s).2.countP Event.is_fb_get = 1 := by
  refine iteration_cases env s hs (fun it => it.1.res = ESP_OK ∧ it.1.n_get = s.n_get + 1 ∧
    (∃ h p, chunk_writes it.2 = [(boundary_delimiter, ESP_OK), (h, ESP_OK), (p, ESP_OK)]) ∧
    it.2.countP Event.is_fb_get = 1) ?_ ?_ ?_ ?_
  · intro h; rw [h] at hg; cases hg
  · intro fb _ _ h
    have := hjpg s.n_jpg fb 80
    rw [h] at this; cases this
  · intro fb out _ _ _
    rw [send_outcome_ok env _ _ _ hw]
    refine ⟨rfl, rfl, ⟨header_chunk out.length, out, ?_⟩, ?_⟩
    · simp [chunk_writes, buf_ptr.read_events, buf_ptr.data, Event.chunk, boundary_chunk_eq]
    · simp [buf_ptr.read_events, Event.is_fb_get]
  · intro fb _ _
    rw [send_outcome_ok env _ _ _ hw]
    refine ⟨rfl, rfl, ⟨header_chunk fb.len, fb.buf, ?_⟩, ?_⟩
    · simp [chunk_writes, buf_ptr.read_events, buf_ptr.data, Event.chunk, boundary_chunk_eq,
        camera_fb_t.len]
    · simp [buf_ptr.read_events, Event.is_fb_get]

theorem stream_loop_capture_failure (env : Env)
    (hjpg : ∀ i fb q, (env.frame2jpg i fb q).isSome)
    (hw : ∀ i d, env.resp_send_chunk i d = ESP_OK) (m : Nat) :
    ∀ (s : StreamState) (fuel : Nat), LoopEntry s →
      (∀ i, i < m → (env.fb_get (s.n_get + i)).isSome) →
      env.fb_get (s.n_get + m) = none → m < fuel →
      (stream_loop env fuel s).1 = some ESP_FAIL ∧
      (∃ parts, parts.length = m ∧
        chunk_writes (stream_loop env fuel s).2 = complete_parts parts) ∧
      (stream_loop env fuel s).2.countP Event.is_fb_get = m + 1 ∧
      ∃ pre, (stream_loop env fuel s).2 =
        pre ++ [.fb_get none, .log_e "Camera capture failed"] := by
  induction m with
  | zero =>
    intro s fuel hs _ hnone hfuel
    obtain ⟨f, rfl⟩ : ∃ f, fuel = f + 1 := ⟨fuel - 1, by omega⟩
    rw [stream_loop_succ, iter_get_none env s hs.2 (by simpa using hnone),
      if_pos (by exact ESP_FAIL_ne_OK)]
    exact ⟨rfl, ⟨[], rfl, rfl⟩, rfl, [], rfl⟩
  | succ m ih =>
    intro s fuel hs hsome hnone hfuel
    obtain ⟨f, rfl⟩ : ∃ f, fuel = f + 1 := ⟨fuel - 1, by omega⟩
    obtain ⟨hr, hn, ⟨h, p, hc⟩, hcount⟩ :=
      stream_iteration_ok env s hs (by simpa using hsome 0 (by omega)) hjpg hw
    have hn2 : (stream_timing env (stream_iteration env s).1).1.n_get = s.n_get + 1 := by
      simpa [stream_timing] using hn
    obtain ⟨h1, ⟨parts, hp1, hp2⟩, h3, pre, h4⟩ :=
      ih (stream_timing env (stream_iteration env s).1).1 f (loop_entry_next env s hs hr)
        (by intro i hi; rw [hn2]; have := hsome (i + 1) (by omega); rwa [← Nat.add_assoc,
          Nat.add_right_comm] at this)
        (by rw [hn2]; rwa [← Nat.add_assoc, Nat.add_right_comm] at hnone)
        (by omega)
    rw [stream_loop_succ]
    simp only [hr, ne_eq, not_true_eq_false, if_false]
    refine ⟨h1, ⟨(h, p) :: parts, by simp [hp1], ?_⟩, ?_, ?_⟩
    · rw [chunk_writes_append, chunk_writes_append, hc, chunk_writes_timing, hp2]
      simp [complete_parts]
    · rw [List.countP_append, List.countP_append, hcount, h3]
      simp [stream_timing, Event.is_fb_get]
      omega
    · exact ⟨(stream_iteration env s).2 ++ (stream_timing env (stream_iteration env s).1).2
        ++ pre, by rw [h4]; simp⟩

/-- C3. Let the content type be set, the camera succeed on its acquisitions 1 to `k - 1` and
fail on acquisition `k`, and every transcode and every write succeed.  Then with fuel for `k`
passes or more the streaming handler returns `ESP_FAIL`; its chunk writes are exactly `k - 1`
complete parts (delimiter, header, payload, every write successful), so there is no `k`-th
delimiter; it calls `esp_camera_fb_get` exactly `k` times; and the failed acquisition with its
log line are the last events. -/
theorem capture_failure_ends_stream (env : Env) (last_frame : Int) (k fuel : Nat)
    (hk : 1 ≤ k) (hfuel : k ≤ fuel)
    (hset : env.resp_set_type _STREAM_CONTENT_TYPE = ESP_OK)
    (hsome : ∀ i, i < k - 1 → (env.fb_get i).isSome)
    (hnone : env.fb_get (k - 1) = none)
    (hjpg : ∀ i fb q, (env.frame2jpg i fb q).isSome)
    (hw : ∀ i d, env.resp_send_chunk i d = ESP_OK) :
    (jpg_stream_httpd_handler env last_frame fuel).ret = some ESP_FAIL ∧
    (∃ parts, parts.length = k - 1 ∧
      chunk_writes (jpg_stream_httpd_handler env last_frame fuel).trace = complete_parts parts) ∧
    (jpg_stream_httpd_handler env last_frame fuel).trace.countP Event.is_fb_get = k ∧
    ∃ pre, (jpg_stream_httpd_handler env last_frame fuel).trace =
      pre ++ [.fb_get none, .log_e "Camera capture failed"] := by
  have hs : LoopEntry (stream_start env last_frame) := ⟨hset, rfl⟩
  obtain ⟨h1, ⟨parts, hp1, hp2⟩, h3, pre, h4⟩ :=
    stream_loop_capture_failure env hjpg hw (k - 1) (stream_start env last_frame) fuel hs
      (by intro i hi; simpa [stream_start] using hsome i hi)
      (by simpa [stream_start] using hnone) (by omega)
  have hres : (stream_start env last_frame).res = ESP_OK := hset
  unfold jpg_stream_httpd_handler
  simp only [hres, ne_eq, not_true_eq_false, if_false]
  refine ⟨h1, ⟨parts, hp1, ?_⟩, ?_, ?_⟩
  · rw [chunk_writes_append, hp2]; rfl
  · rw [List.countP_append, h3]
    simp [Event.is_fb_get]
    omega
  · exact ⟨_, by rw [h4, ← List.append_assoc]⟩

/-- Witness of C3: the claim's case `k = 5`, four frames and a failure on the fifth
acquisition. -/
theorem capture_failure_ends_stream_witness :
    (jpg_stream_httpd_handler env_four_frames 0 5).ret = some ESP_FAIL ∧
    (∃ parts, parts.length = 5 - 1 ∧
      chunk_writes (jpg_stream_httpd_handler env_four_frames 0 5).trace =
        complete_parts parts) ∧
    (jpg_stream_httpd_handler env_four_frames 0 5).trace.countP Event.is_fb_get = 5 ∧
    ∃ pre, (jpg_stream_httpd_handler env_four_frames 0 5).trace =
      pre ++ [.fb_get none, .log_e "Camera capture failed"] :=
  capture_failure_ends_stream env_four_frames 0 5 5 (by decide) (by decide) rfl
    (by intro i hi; simp only [env_four_frames]; rw [if_pos (by omega)]; rfl) rfl
    (by intro i fb q; rfl) (by intro i d; rfl)

/-- C4. For every frame acquired by the still handler, a body is written with
`httpd_resp_send` if and only if the frame's format is JPEG; when it is not, the handler makes
no body write and no chunk write and returns `ESP_OK`. -/
theorem still_body_iff_jpeg (env : Env) (fb : camera_fb_t) (hg : env.fb_get 0 = some fb) :
    (body_writes (http_send_jpg_handler env).trace ≠ [] ↔ fb.format = PIXFORMAT_JPEG) ∧
    (fb.format ≠ PIXFORMAT_JPEG →
      body_writes (http_send_jpg_handler env).trace = [] ∧
      chunk_writes (http_send_jpg_handler env).trace = [] ∧
      (http_send_jpg_handler env).ret = ESP_OK) := by
  unfold http_send_jpg_handler
  by_cases hf : fb.format = PIXFORMAT_JPEG <;>
    simp [hg, hf, body_writes, chunk_writes, Event.chunk]

/-- Witness of C4: a raw frame gives no body write, no chunk write, and `ESP_OK`. -/
theorem still_body_iff_jpeg_witness :
    env_raw.fb_get 0 = some raw_frame ∧
    body_writes (http_send_jpg_handler env_raw).trace = [] ∧
    chunk_writes (http_send_jpg_handler env_raw).trace = [] ∧
    (http_send_jpg_handler env_raw).ret = ESP_OK :=
  ⟨rfl, (still_body_iff_jpeg env_raw raw_frame rfl).2 (by decide)⟩

/-- C5. When the acquisition fails, the still handler logs the failure, sends the response
500 and returns `ESP_FAIL`; it makes no release call, sets no content type and no header, and
writes no body. -/
theorem still_capture_failure (env : Env) (hg : env.fb_get 0 = none) :
    (http_send_jpg_handler env).ret = ESP_FAIL ∧
    (http_send_jpg_handler env).trace =
      [.fb_get none, .log_e "Camera capture failed", .resp_send_500] ∧
    (http_send_jpg_handler env).trace.countP Event.is_fb_return = 0 ∧
    (http_send_jpg_handler env).trace.countP Event.is_header = 0 ∧
    body_writes (http_send_jpg_handler env).trace = [] ∧
    chunk_writes (http_send_jpg_handler env).trace = [] := by
  unfold http_send_jpg_handler
  simp [hg, body_writes, chunk_writes, Event.chunk, Event.is_fb_return, Event.is_header]

/-- Witness of C5: the camera without a frame. -/
theorem still_capture_failure_witness :
    (http_send_jpg_handler env_no_frame).ret = ESP_FAIL ∧
    (http_send_jpg_handler env_no_frame).trace =
      [.fb_get none, .log_e "Camera capture failed", .resp_send_500] ∧
    (http_send_jpg_handler env_no_frame).trace.countP Event.is_fb_return = 0 ∧
    (http_send_jpg_handler env_no_frame).trace.countP Event.is_header = 0 ∧
    body_writes (http_send_jpg_handler env_no_frame).trace = [] ∧
    chunk_writes (http_send_jpg_handler env_no_frame).trace = [] :=
  still_capture_failure env_no_frame rfl

theorem toDigits_length_le_19 (n : Nat) (h : n < 2 ^ 63) : (Nat.toDigits 10 n).length ≤ 19 := by
  unfold Nat.toDigits
  exact Nat.toDigitsCore_length 10 (by decide) _ n 19 (by omega) (by decide)

theorem toDigits_length_le_6 (n : Nat) (h : n < 1000000) : (Nat.toDigits 10 n).length ≤ 6 := by
  unfold Nat.toDigits
  exact Nat.toDigitsCore_length 10 (by decide) _ n 6 (by omega) (by decide)

theorem format_ts_eq (sec usec : Nat) (hsec : sec < 2 ^ 63) (husec : usec < 1000000) :
    String.mk (snprintf 32 (format_ts ⟨sec, usec⟩)).1 = timestamp_text sec usec ∧
    (pad6 usec).length = 6 := by
  have h19 := toDigits_length_le_19 sec hsec
  have h6 := toDigits_length_le_6 usec husec
  have hd : ∀ n : Nat, (toString n).data = Nat.toDigits 10 n := fun _ => rfl
  have hl : ∀ n : Nat, (toString n).length = (Nat.toDigits 10 n).length := fun _ => rfl
  have hneg : ∀ n : Nat, ¬ ((n : Int) < 0) := fun n => by simp
  have hf : format_ts ⟨sec, usec⟩ = Nat.toDigits 10 sec ++ '.' ::
      (List.replicate (6 - (Nat.toDigits 10 usec).length) '0' ++ Nat.toDigits 10 usec) := by
    simp [format_ts, fmt_ld, fmt_06ld, hneg]
  constructor
  · apply String.ext
    have hlen : (format_ts ⟨sec, usec⟩).length ≤ 31 := by
      rw [hf]; simp only [List.length_append, List.length_cons, List.length_replicate]; omega
    have e : (snprintf 32 (format_ts ⟨sec, usec⟩)).1 = format_ts ⟨sec, usec⟩ :=
      List.take_of_length_le hlen
    rw [e, hf]
    simp [timestamp_text, pad6, hd, hl]
  · simp only [pad6, String.length_append, hl]
    show (List.replicate (6 - (Nat.toDigits 10 usec).length) '0').length + _ = 6
    rw [List.length_replicate]; omega

/-- C6. For an acquired JPEG frame whose timestamp is `(sec, usec)` with `0 ≤ sec` (within the
range of a C `long`) and `0 ≤ usec < 1000000`, the still handler sets the header `X-Timestamp`
to `sec` in decimal, a dot, and `usec` filled with zeros to exactly 6 digits; it sends the
frame's buffer, all `fb.len` bytes, as the body in one send call, and returns the result of
that call. -/
theorem still_jpeg_response (env : Env) (fb : camera_fb_t) (sec usec : Nat)
    (hg : env.fb_get 0 = some fb) (hf : fb.format = PIXFORMAT_JPEG)
    (ht : fb.timestamp = ⟨sec, usec⟩) (hsec : sec < 2 ^ 63) (husec : usec < 1000000) :
    headers_set (http_send_jpg_handler env).trace =
      [("Content-Disposition", "inline; filename=capture.jpg"),
       ("Access-Control-Allow-Origin", "*"),
       ("X-Timestamp", timestamp_text sec usec)] ∧
    (pad6 usec).length = 6 ∧
    body_writes (http_send_jpg_handler env).trace = [(fb.buf, env.resp_send fb.buf)] ∧
    (http_send_jpg_handler env).ret = env.resp_send fb.buf := by
  obtain ⟨h1, h2⟩ := format_ts_eq sec usec hsec husec
  unfold http_send_jpg_handler
  simp [hg, hf, ht, h1, h2, headers_set, body_writes, camera_fb_t.len]

/-- Witness of C6: the 100-byte JPEG frame taken at `(10, 500000)` gives
`X-Timestamp: 10.500000` and a body of the same 100 bytes. -/
theorem still_jpeg_response_witness :
    headers_set (http_send_jpg_handler env_four_frames).trace =
      [("Content-Disposition", "inline; filename=capture.jpg"),
       ("Access-Control-Allow-Origin", "*"),
       ("X-Timestamp", "10.500000")] ∧
    (pad6 500000).length = 6 ∧
    body_writes (http_send_jpg_handler env_four_frames).trace =
      [(List.range 100, ESP_OK)] ∧
    (http_send_jpg_handler env_four_frames).ret = ESP_OK :=
  still_jpeg_response env_four_frames jpeg_frame 10 500000 rfl rfl rfl (by decide) (by decide)

theorem stream_entry_loop_entry (env : Env) (last_frame : Int) (n : Nat) :
    ∀ s, stream_entry env last_frame n = some s → LoopEntry s := by
  induction n with
  | zero =>
    intro s h
    simp only [stream_entry] at h
    split at h
    · cases h
    · rename_i hr
      cases h
      exact ⟨not_not.mp hr, rfl⟩
  | succ n ih =>
    intro s h
    simp only [stream_entry] at h
    cases h0 : stream_entry env last_frame n with
    | none => rw [h0] at h; cases h
    | some s0 =>
      rw [h0] at h
      simp only [Option.some_bind] at h
      split at h
      · cases h
      · rename_i hr
        cases h
        exact loop_entry_next env s0 (ih s0 h0) (not_not.mp hr)

/-- C7 as stated fails: a successful pass over a raw frame calls both
`esp_camera_fb_return` (once, after the transcode) and `free` (once, after the writes). -/
theorem one_release_or_free_counterexample :
    stream_entry env_raw 0 0 = some (stream_start env_raw 0) ∧
    (stream_iteration env_raw (stream_start env_raw 0)).1.res = ESP_OK ∧
    (stream_iteration env_raw (stream_start env_raw 0)).2.countP Event.is_fb_return = 1 ∧
    (stream_iteration env_raw (stream_start env_raw 0)).2.countP Event.is_free = 1 ∧
    ¬ ((stream_iteration env_raw (stream_start env_raw 0)).2.countP Event.is_fb_return = 0) := by
  refine ⟨rfl, ?_, ?_, ?_, ?_⟩ <;> decide

/-- C7, amended. In every successful pass of the streaming loop exactly one release-or-free
call follows the three writes, and it matches the source of the payload.  For a JPEG frame the
payload is the frame's buffer and the call is the frame's release: one release and no free in
the pass.  For a transcoded frame the payload is the transcoder's buffer and the call is the
free of that buffer: one free in the pass, and the one release of the original frame stands
right after the transcode, before the first write. -/
theorem one_disposal_after_writes (env : Env) (last_frame : Int) (n : Nat) (s : StreamState)
    (h : stream_entry env last_frame n = some s)
    (hok : (stream_iteration env s).1.res = ESP_OK) :
    ∃ fb, env.fb_get s.n_get = some fb ∧
      ((fb.format = PIXFORMAT_JPEG ∧
        (stream_iteration env s).2 =
          [.fb_get (some fb), .fb_read fb, .fb_read fb, .fb_read fb, .fb_read fb, .fb_read fb,
           .resp_send_chunk boundary_chunk ESP_OK,
           .resp_send_chunk (header_chunk fb.len) ESP_OK,
           .fb_read fb, .resp_send_chunk fb.buf ESP_OK, .fb_return fb] ∧
        (stream_iteration env s).2.countP Event.is_fb_return = 1 ∧
        (stream_iteration env s).2.countP Event.is_free = 0) ∨
       (fb.format ≠ PIXFORMAT_JPEG ∧ ∃ out, env.frame2jpg s.n_jpg fb 80 = some out ∧
        (stream_iteration env s).2 =
          [.fb_get (some fb), .fb_read fb, .fb_read fb, .fb_read fb,
           .frame2jpg fb 80 (some out), .fb_return fb,
           .resp_send_chunk boundary_chunk ESP_OK,
           .resp_send_chunk (header_chunk out.length) ESP_OK,
           .resp_send_chunk out ESP_OK, .free (.heap out)] ∧
        (stream_iteration env s).2.countP Event.is_fb_return = 1 ∧
        (stream_iteration env s).2.countP Event.is_free = 1)) := by
  have hs := stream_entry_loop_entry env last_frame n s h
  revert hok
  refine iteration_cases env s hs (fun it => it.1.res = ESP_OK → ∃ fb,
    env.fb_get s.n_get = some fb ∧
      ((fb.format = PIXFORMAT_JPEG ∧
        it.2 =
          [.fb_get (some fb), .fb_read fb, .fb_read fb, .fb_read fb, .fb_read fb, .fb_read fb,
           .resp_send_chunk boundary_chunk ESP_OK,
           .resp_send_chunk (header_chunk fb.len) ESP_OK,
           .fb_read fb, .resp_send_chunk fb.buf ESP_OK, .fb_return fb] ∧
        it.2.countP Event.is_fb_return = 1 ∧ it.2.countP Event.is_free = 0) ∨
       (fb.format ≠ PIXFORMAT_JPEG ∧ ∃ out, env.frame2jpg s.n_jpg fb 80 = some out ∧
        it.2 =
          [.fb_get (some fb), .fb_read fb, .fb_read fb, .fb_read fb,
           .frame2jpg fb 80 (some out), .fb_return fb,
           .resp_send_chunk boundary_chunk ESP_OK,
           .resp_send_chunk (header_chunk out.length) ESP_OK,
           .resp_send_chunk out ESP_OK, .free (.heap out)] ∧
        it.2.countP Event.is_fb_return = 1 ∧ it.2.countP Event.is_free = 1))) ?_ ?_ ?_ ?_
  · intro _ hres; exact absurd hres ESP_FAIL_ne_OK
  · intro fb _ _ _ hres; exact absurd hres ESP_FAIL_ne_OK
  · intro fb out hg hf hj
    rcases send_outcome_cases env s.n_chunk out.length (.heap out) with
      ⟨r, hr, _, e⟩ | ⟨r, hr, _, _, e⟩ | ⟨r, _, _, _, e⟩ <;> rw [e] <;> intro hres
    · exact absurd hres hr
    · exact absurd hres hr
    · have hr : r = ESP_OK := hres
      subst hr
      refine ⟨fb, hg, Or.inr ⟨hf, out, hj, ?_, ?_, ?_⟩⟩ <;>
        simp [buf_ptr.read_events, buf_ptr.data, Event.is_fb_return, Event.is_free]
  · intro fb hg hf
    rcases send_outcome_cases env s.n_chunk fb.len (.of_fb fb) with
      ⟨r, hr, _, e⟩ | ⟨r, hr, _, _, e⟩ | ⟨r, _, _, _, e⟩ <;> rw [e] <;> intro hres
    · exact absurd hres hr
    · exact absurd hres hr
    · have hr : r = ESP_OK := hres
      subst hr
      refine ⟨fb, hg, Or.inl ⟨hf, ?_, ?_, ?_⟩⟩ <;>
        simp [buf_ptr.read_events, buf_ptr.data, Event.is_fb_return, Event.is_free,
          camera_fb_t.len]

/-- Witness of C7, amended: the first pass over a raw frame. -/
theorem one_disposal_after_writes_witness :
    ∃ fb, env_raw.fb_get (stream_start env_raw 0).n_get = some fb ∧
      ((fb.format = PIXFORMAT_JPEG ∧
        (stream_iteration env_raw (stream_start env_raw 0)).2 =
          [.fb_get (some fb), .fb_read fb, .fb_read fb, .fb_read fb, .fb_read fb, .fb_read fb,
           .resp_send_chunk boundary_chunk ESP_OK,
           .resp_send_chunk (header_chunk fb.len) ESP_OK,
           .fb_read fb, .resp_send_chunk fb.buf ESP_OK, .fb_return fb] ∧
        (stream_iteration env_raw (stream_start env_raw 0)).2.countP Event.is_fb_return = 1 ∧
        (stream_iteration env_raw (stream_start env_raw 0)).2.countP Event.is_free = 0) ∨
       (fb.format ≠ PIXFORMAT_JPEG ∧
        ∃ out, env_raw.frame2jpg (stream_start env_raw 0).n_jpg fb 80 = some out ∧
        (stream_iteration env_raw (stream_start env_raw 0)).2 =
          [.fb_get (some fb), .fb_read fb, .fb_read fb, .fb_read fb,
           .frame2jpg fb 80 (some out), .fb_return fb,
           .resp_send_chunk boundary_chunk ESP_OK,
           .resp_send_chunk (header_chunk out.length) ESP_OK,
           .resp_send_chunk out ESP_OK, .free (.heap out)] ∧
        (stream_iteration env_raw (stream_start env_raw 0)).2.countP Event.is_fb_return = 1 ∧
        (stream_iteration env_raw (stream_start env_raw 0)).2.countP Event.is_free = 1)) :=
  one_disposal_after_writes env_raw 0 0 (stream_start env_raw 0) rfl (by decide)

theorem part_writes_eq (env : Env) (n : Nat) (out : List Nat) (hlen : out.length < 2 ^ 32) :
    (send_outcome env n out.length (.heap out)).2.2 = part_writes env n out := by
  simp only [send_outcome, part_writes, boundary_chunk_eq, header_chunk_eq _ hlen,
    buf_ptr.read_events, buf_ptr.data, List.take_length, List.append_nil]
  split
  · rfl
  · split <;> rfl

/-- C8. In every pass of the streaming loop that acquires a frame `fb` whose format is not
JPEG, the handler reads the frame, calls the transcoder on it with quality 80 and returns the
frame right after that call, before any chunk write, whether the transcode failed or not.  When
the transcode fails nothing but the log line follows and `res` is `ESP_FAIL`.  When it gives a
buffer `out` (of a `size_t` length), the chunk writes that follow are those of one part with
payload `out` (header `Content-Length: out.length`, then the bytes of `out`), and the last call
of the pass is the free of `out`. -/
theorem raw_frame_transcoded (env : Env) (last_frame : Int) (n : Nat) (s : StreamState)
    (fb : camera_fb_t) (h : stream_entry env last_frame n = some s)
    (hg : env.fb_get s.n_get = some fb) (hf : fb.format ≠ PIXFORMAT_JPEG) :
    (env.frame2jpg s.n_jpg fb 80 = none →
      (stream_iteration env s).1.res = ESP_FAIL ∧
      (stream_iteration env s).2 =
        [.fb_get (some fb), .fb_read fb, .fb_read fb, .fb_read fb,
         .frame2jpg fb 80 none, .fb_return fb, .log_e "JPEG compression failed"]) ∧
    (∀ out, env.frame2jpg s.n_jpg fb 80 = some out → out.length < 2 ^ 32 →
      (stream_iteration env s).2 =
        [.fb_get (some fb), .fb_read fb, .fb_read fb, .fb_read fb,
         .frame2jpg fb 80 (some out), .fb_return fb]
        ++ part_writes env s.n_chunk out ++ [.free (.heap out)]) := by
  have hs := stream_entry_loop_entry env last_frame n s h
  constructor
  · intro hj
    rw [iter_jpg_failed env s fb hs.2 hg hf hj]
    exact ⟨rfl, rfl⟩
  · intro out hj hlen
    rw [iter_transcoded env s fb out hs.1 hg hf hj, part_writes_eq env _ out hlen]

/-- Witness of C8: a raw frame and a transcoder that returns 50 bytes give a part whose header
announces `Content-Length: 50`, followed by the 50 bytes; the frame is returned before the
first write and the buffer is freed last. -/
theorem raw_frame_transcoded_witness :
    (stream_iteration env_raw (stream_start env_raw 0)).2 =
      [.fb_get (some raw_frame), .fb_read raw_frame, .fb_read raw_frame, .fb_read raw_frame,
       .frame2jpg raw_frame 80 (some (List.replicate 50 0)), .fb_return raw_frame,
       .resp_send_chunk boundary_delimiter ESP_OK,
       .resp_send_chunk (part_header 50) ESP_OK,
       .resp_send_chunk (List.replicate 50 0) ESP_OK,
       .free (.heap (List.replicate 50 0))] :=
  (raw_frame_transcoded env_raw 0 0 (stream_start env_raw 0) raw_frame rfl rfl
    (by decide)).2 (List.replicate 50 0) rfl (by decide)

theorem stream_iteration_failures (env : Env) (s : StreamState) (hs : LoopEntry s) :
    (∀ d e, Event.resp_send_chunk d e ∈ (stream_iteration env s).2 → e ≠ ESP_OK →
      (stream_iteration env s).1.res = e ∧
      ∃ pre x, (stream_iteration env s).2 = pre ++ [.resp_send_chunk d e, x] ∧
        (x.is_fb_return || x.is_free) = true) ∧
    (∀ fb q, Event.frame2jpg fb q none ∈ (stream_iteration env s).2 →
      (stream_iteration env s).1.res = ESP_FAIL ∧
      ∃ pre, (stream_iteration env s).2 =
        pre ++ [.fb_get (some fb), .fb_read fb, .fb_read fb, .fb_read fb,
          .frame2jpg fb q none, .fb_return fb, .log_e "JPEG compression failed"]) := by
  refine iteration_cases env s hs (fun it =>
    (∀ d e, Event.resp_send_chunk d e ∈ it.2 → e ≠ ESP_OK →
      it.1.res = e ∧
      ∃ pre x, it.2 = pre ++ [.resp_send_chunk d e, x] ∧
        (x.is_fb_return || x.is_free) = true) ∧
    (∀ fb q, Event.frame2jpg fb q none ∈ it.2 →
      it.1.res = ESP_FAIL ∧
      ∃ pre, it.2 =
        pre ++ [.fb_get (some fb), .fb_read fb, .fb_read fb, .fb_read fb,
          .frame2jpg fb q none, .fb_return fb, .log_e "JPEG compression failed"]))
    ?_ ?_ ?_ ?_
  · intro _
    constructor
    · intro d e hmem; simp at hmem
    · intro fb q hmem; simp at hmem
  · intro fb _ _ _
    constructor
    · intro d e hmem; simp at hmem
    · intro fb2 q hmem
      simp at hmem
      obtain ⟨rfl, rfl⟩ := hmem
      exact ⟨rfl, [], rfl⟩
  · intro fb out _ _ _
    rcases send_outcome_cases env s.n_chunk out.length (.heap out) with
      ⟨r, hr, _, e⟩ | ⟨r, hr, _, _, e⟩ | ⟨r, _, _, _, e⟩ <;> rw [e] <;> constructor
    · intro d e hmem hne
      simp at hmem
      obtain ⟨rfl, rfl⟩ := hmem
      exact ⟨rfl, [.fb_get (some fb), .fb_read fb, .fb_read fb, .fb_read fb,
          .frame2jpg fb 80 (some out), .fb_return fb], _, rfl, rfl⟩
    · intro fb2 q hmem; simp at hmem
    · intro d e hmem hne
      simp at hmem
      rcases hmem with ⟨rfl, rfl⟩ | ⟨rfl, rfl⟩
      · exact absurd rfl hne
      · exact ⟨rfl, [.fb_get (some fb), .fb_read fb, .fb_read fb, .fb_read fb,
          .frame2jpg fb 80 (some out), .fb_return fb,
          .resp_send_chunk boundary_chunk ESP_OK], _, rfl, rfl⟩
    · intro fb2 q hmem; simp at hmem
    · intro d e hmem hne
      simp [buf_ptr.read_events] at hmem
      rcases hmem with ⟨rfl, rfl⟩ | ⟨rfl, rfl⟩ | ⟨rfl, rfl⟩
      · exact absurd rfl hne
      · exact absurd rfl hne
      · exact ⟨rfl, [.fb_get (some fb), .fb_read fb, .fb_read fb, .fb_read fb,
          .frame2jpg fb 80 (some out), .fb_return fb,
          .resp_send_chunk boundary_chunk ESP_OK,
          .resp_send_chunk (header_chunk out.length) ESP_OK], _, rfl, rfl⟩
    · intro fb2 q hmem; simp [buf_ptr.read_events] at hmem
  · intro fb _ _
    rcases send_outcome_cases env s.n_chunk fb.len (.of_fb fb) with
      ⟨r, hr, _, e⟩ | ⟨r, hr, _, _, e⟩ | ⟨r, _, _, _, e⟩ <;> rw [e] <;> constructor
    · intro d e hmem hne
      simp at hmem
      obtain ⟨rfl, rfl⟩ := hmem
      exact ⟨rfl, [.fb_get (some fb), .fb_read fb, .fb_read fb, .fb_read fb,
          .fb_read fb, .fb_read fb], _, rfl, rfl⟩
    · intro fb2 q hmem; simp at hmem
    · intro d e hmem hne
      simp at hmem
      rcases hmem with ⟨rfl, rfl⟩ | ⟨rfl, rfl⟩
      · exact absurd rfl hne
      · exact ⟨rfl, [.fb_get (some fb), .fb_read fb, .fb_read fb, .fb_read fb,
          .fb_read fb, .fb_read fb,
          .resp_send_chunk boundary_chunk ESP_OK], _, rfl, rfl⟩
    · intro fb2 q hmem; simp at hmem
    · intro d e hmem hne
      simp [buf_ptr.read_events] at hmem
      rcases hmem with ⟨rfl, rfl⟩ | ⟨rfl, rfl⟩ | ⟨rfl, rfl⟩
      · exact absurd rfl hne
      · exact absurd rfl hne
      · exact ⟨rfl, [.fb_get (some fb), .fb_read fb, .fb_read fb, .fb_read fb,
          .fb_read fb, .fb_read fb,
          .resp_send_chunk boundary_chunk ESP_OK,
          .resp_send_chunk (header_chunk fb.len) ESP_OK, .fb_read fb], _, rfl, rfl⟩
    · intro fb2 q hmem; simp [buf_ptr.read_events] at hmem

theorem stream_loop_failures (env : Env) (fuel : Nat) :
    ∀ s, LoopEntry s →
    (∀ e, (stream_loop env fuel s).1 = some e → e ≠ ESP_OK) ∧
    (∀ d e, Event.resp_send_chunk d e ∈ (stream_loop env fuel s).2 → e ≠ ESP_OK →
      (stream_loop env fuel s).1 = some e ∧
      ∃ pre x, (stream_loop env fuel s).2 = pre ++ [.resp_send_chunk d e, x] ∧
        (x.is_fb_return || x.is_free) = true) ∧
    (∀ fb q, Event.frame2jpg fb q none ∈ (stream_loop env fuel s).2 →
      (stream_loop env fuel s).1 = some ESP_FAIL ∧
      ∃ pre, (stream_loop env fuel s).2 =
        pre ++ [.fb_get (some fb), .fb_read fb, .fb_read fb, .fb_read fb,
          .frame2jpg fb q none, .fb_return fb, .log_e "JPEG compression failed"]) := by
  induction fuel with
  | zero =>
    intro s _
    refine ⟨?_, ?_, ?_⟩
    · intro e h; cases h
    · intro d e h; simp [stream_loop] at h
    · intro fb q h; simp [stream_loop] at h
  | succ fuel ih =>
    intro s hs
    obtain ⟨hw, hj⟩ := stream_iteration_failures env s hs
    rw [stream_loop_succ]
    by_cases hr : (stream_iteration env s).1.res = ESP_OK
    · rw [if_neg (not_not.mpr hr)]
      obtain ⟨i1, i2, i3⟩ := ih _ (loop_entry_next env s hs hr)
      refine ⟨i1, ?_, ?_⟩
      · intro d e hmem hne
        rw [List.mem_append, List.mem_append] at hmem
        rcases hmem with (hmem | hmem) | hmem
        · exact absurd (hr.symm.trans (hw d e hmem hne).1).symm hne
        · simp [stream_timing] at hmem
        · obtain ⟨h1, pre, x, h2, h3⟩ := i2 d e hmem hne
          exact ⟨h1, (stream_iteration env s).2 ++
            (stream_timing env (stream_iteration env s).1).2 ++ pre, x,
            by rw [h2]; simp, h3⟩
      · intro fb q hmem
        rw [List.mem_append, List.mem_append] at hmem
        rcases hmem with (hmem | hmem) | hmem
        · exact absurd (hr.symm.trans (hj fb q hmem).1) (Ne.symm ESP_FAIL_ne_OK)
        · simp [stream_timing] at hmem
        · obtain ⟨h1, pre, h2⟩ := i3 fb q hmem
          exact ⟨h1, (stream_iteration env s).2 ++
            (stream_timing env (stream_iteration env s).1).2 ++ pre, by rw [h2]; simp⟩
    · rw [if_pos hr]
      refine ⟨?_, ?_, ?_⟩
      · intro e h; cases h; exact hr
      · intro d e hmem hne
        obtain ⟨h1, h2⟩ := hw d e hmem hne
        exact ⟨congrArg some h1, h2⟩
      · intro fb q hmem
        obtain ⟨h1, h2⟩ := hj fb q hmem
        exact ⟨congrArg some h1, h2⟩

/-- C9. In every run of the streaming handler, cut after any number of passes: the handler
returns only with a code other than `ESP_OK`; a chunk write that reports a failure code `e` is
followed by nothing but the one release or free of that pass (no later write, no further
acquisition), and the handler has returned exactly `e`; a pass with a failed transcode consists
of the acquisition, the transcode, the release of the frame and the log line (no chunk write),
it is the last pass, and the handler has returned `ESP_FAIL`. -/
theorem write_failure_ends_stream (env : Env) (last_frame : Int) (fuel : Nat) :
    (∀ e, (jpg_stream_httpd_handler env last_frame fuel).ret = some e → e ≠ ESP_OK) ∧
    (∀ d e, Event.resp_send_chunk d e ∈ (jpg_stream_httpd_handler env last_frame fuel).trace →
      e ≠ ESP_OK →
      (jpg_stream_httpd_handler env last_frame fuel).ret = some e ∧
      ∃ pre x, (jpg_stream_httpd_handler env last_frame fuel).trace =
          pre ++ [.resp_send_chunk d e, x] ∧
        (x.is_fb_return || x.is_free) = true) ∧
    (∀ fb q, Event.frame2jpg fb q none ∈ (jpg_stream_httpd_handler env last_frame fuel).trace →
      (jpg_stream_httpd_handler env last_frame fuel).ret = some ESP_FAIL ∧
      ∃ pre, (jpg_stream_httpd_handler env last_frame fuel).trace =
        pre ++ [.fb_get (some fb), .fb_read fb, .fb_read fb, .fb_read fb,
          .frame2jpg fb q none, .fb_return fb, .log_e "JPEG compression failed"]) := by
  unfold jpg_stream_httpd_handler
  by_cases h : (stream_start env last_frame).res = ESP_OK
  · obtain ⟨i1, i2, i3⟩ := stream_loop_failures env fuel _ ⟨h, rfl⟩
    simp only [h, ne_eq, not_true_eq_false, if_false]
    refine ⟨i1, ?_, ?_⟩
    · intro d e hmem hne
      rw [List.mem_append] at hmem
      rcases hmem with hmem | hmem
      · simp at hmem
      · obtain ⟨h1, pre, x, h2, h3⟩ := i2 d e hmem hne
        exact ⟨h1, _ ++ pre, x, by rw [h2, List.append_assoc], h3⟩
    · intro fb q hmem
      rw [List.mem_append] at hmem
      rcases hmem with hmem | hmem
      · simp at hmem
      · obtain ⟨h1, pre, h2⟩ := i3 fb q hmem
        exact ⟨h1, _ ++ pre, by rw [h2, List.append_assoc]⟩
  · simp only [h, ne_eq, not_false_eq_true, if_true]
    refine ⟨?_, ?_, ?_⟩
    · intro e he; cases he; exact h
    · intro d e hmem; simp at hmem
    · intro fb q hmem; simp at hmem

set_option maxRecDepth 20000 in
/-- Witness of C9: the header write of the second part fails with `0xb007`; the handler
returns that code and the trace ends with the failed write and the frame's release. -/
theorem write_failure_ends_stream_witness :
    (jpg_stream_httpd_handler env_write_fails 0 3).ret = some 45063 ∧
    ∃ pre x, (jpg_stream_httpd_handler env_write_fails 0 3).trace =
        pre ++ [.resp_send_chunk (part_header 100) 45063, x] ∧
      (x.is_fb_return || x.is_free) = true :=
  (write_failure_ends_stream env_write_fails 0 3).2.1 (part_header 100) 45063
    (by decide) (by decide)

theorem stream_iteration_clock (env : Env) (s : StreamState) (hs : LoopEntry s) :
    (stream_iteration env s).1.n_timer = s.n_timer ∧
    (stream_iteration env s).1.last_frame = s.last_frame := by
  refine iteration_cases env s hs (fun it => it.1.n_timer = s.n_timer ∧
    it.1.last_frame = s.last_frame) ?_ ?_ ?_ ?_
  · intro _; exact ⟨rfl, rfl⟩
  · intro _ _ _ _; exact ⟨rfl, rfl⟩
  · intro _ _ _ _ _; exact ⟨rfl, rfl⟩
  · intro _ _ _; exact ⟨rfl, rfl⟩

/-- C10 as stated fails: with two clock readings 500 microseconds apart the
pass succeeds, the log call is made, and the divisor `(uint32_t)frame_time` of its
frames-per-second argument is 0. -/
theorem fps_divisor_counterexample :
    stream_entry env_four_frames 0 0 = some (stream_start env_four_frames 0) ∧
    (stream_iteration env_four_frames (stream_start env_four_frames 0)).1.res = ESP_OK ∧
    env_four_frames.timer 1 - (stream_start env_four_frames 0).last_frame = 500 ∧
    (stream_timing env_four_frames
      (stream_iteration env_four_frames (stream_start env_four_frames 0)).1).2 =
        [.log_mjpg 0 0 0] := by
  refine ⟨rfl, ?_, ?_, ?_⟩ <;> decide

/-- C10, amended. After every successful pass of the streaming loop the handler reads the
clock (`fr_end`), stores it as the new `last_frame`, and logs with the elapsed time
`(fr_end - last_frame) / 1000` cast to `uint32_t`, which is also the divisor of the
frames-per-second argument.  The division is not guarded: the divisor is not 0 when the two
readings are at least 1000 microseconds and less than `1000 * 2 ^ 32` microseconds apart, and
it is 0 when they are less than 1000 microseconds apart. -/
theorem frame_time_millis (env : Env) (last_frame : Int) (n : Nat) (s : StreamState)
    (h : stream_entry env last_frame n = some s)
    (hok : (stream_iteration env s).1.res = ESP_OK) :
    (∃ s2, stream_entry env last_frame (n + 1) = some s2 ∧
      s2.last_frame = env.timer s.n_timer) ∧
    (stream_timing env (stream_iteration env s).1).2 =
      [.log_mjpg (((stream_iteration env s).1._jpg_buf_len / 1024) % 2 ^ 32)
        (to_uint32 (Int.tdiv (env.timer s.n_timer - s.last_frame) 1000))
        (to_uint32 (Int.tdiv (env.timer s.n_timer - s.last_frame) 1000))] ∧
    (1000 ≤ env.timer s.n_timer - s.last_frame →
      env.timer s.n_timer - s.last_frame < 1000 * 2 ^ 32 →
      to_uint32 (Int.tdiv (env.timer s.n_timer - s.last_frame) 1000) ≠ 0) ∧
    (0 ≤ env.timer s.n_timer - s.last_frame →
      env.timer s.n_timer - s.last_frame < 1000 →
      to_uint32 (Int.tdiv (env.timer s.n_timer - s.last_frame) 1000) = 0) := by
  have hs := stream_entry_loop_entry env last_frame n s h
  obtain ⟨c1, c2⟩ := stream_iteration_clock env s hs
  refine ⟨⟨(stream_timing env (stream_iteration env s).1).1, ?_, ?_⟩, ?_, ?_, ?_⟩
  · simp only [stream_entry, h, Option.some_bind, hok, ne_eq, not_true_eq_false, if_false]
  · simp only [stream_timing, c1]
  · simp only [stream_timing, c1, c2]
  · intro h1 h2
    unfold to_uint32
    rw [Int.tdiv_eq_ediv (by omega) (by decide)]
    omega
  · intro h1 h2
    unfold to_uint32
    rw [Int.tdiv_eq_ediv (by omega) (by decide)]
    omega

/-- Witness of C10, amended: in the first pass over a raw frame the readings are 40000
microseconds apart and the divisor is not 0. -/
theorem frame_time_millis_witness :
    stream_entry env_raw 0 0 = some (stream_start env_raw 0) ∧
    (stream_iteration env_raw (stream_start env_raw 0)).1.res = ESP_OK ∧
    to_uint32 (Int.tdiv (env_raw.timer (stream_start env_raw 0).n_timer -
      (stream_start env_raw 0).last_frame) 1000) ≠ 0 :=
  ⟨rfl, by decide,
    (frame_time_millis env_raw 0 0 (stream_start env_raw 0) rfl (by decide)).2.2.1
      (by decide) (by decide)⟩

/-- Once the loop has exited, more fuel changes nothing. -/
theorem stream_loop_stable (env : Env) (fuel k : Nat) :
    ∀ s, (stream_loop env fuel s).1.isSome →
      stream_loop env (fuel + k) s = stream_loop env fuel s := by
  induction fuel with
  | zero => intro s h; cases h
  | succ fuel ih =>
    intro s h
    rw [Nat.add_right_comm, stream_loop_succ, stream_loop_succ]
    rw [stream_loop_succ] at h
    by_cases hr : (stream_iteration env s).1.res = ESP_OK
    · rw [if_neg (not_not.mpr hr)] at h ⊢
      rw [if_neg (not_not.mpr hr), ih _ h]
    · rw [if_pos hr, if_pos hr]

end CameraHttp
